import Mathlib

/-!
Verification of the tutoring backend (`server.py`).

The embedding translates the core of the server into Lean:

* Python string primitives (`str.strip`, `str.replace`, `"\n".join`,
  truthiness of a stripped string) are modelled at the character-list
  level so that all definitions are executable by the kernel.
* `fetch_chat_history`, `format_history_for_prompt`, `build_prompt`,
  `generate_ai_reply`, the `/chat` route, the `/generate_test` route
  (test composition with fallback) and the `/submit_test` scoring loop
  are each translated from the source.
* The external collaborators (Firestore, the Cohere client) are modelled
  as explicit parameters: the store's query result, the stored test
  document and the model invocation outcome are inputs of the embedded
  functions, matching the collaborator contracts of the design.
* `json.loads` from the Python standard library is modelled by a small
  executable JSON parser (`jsonLoads`). It covers the JSON fragment the
  server exchanges (objects, arrays, strings, integers, booleans, null);
  floating-point literals are rejected, which is irrelevant here because
  no payload in question contains them.
-/

namespace Athena

/-! ### Python string primitives -/

/-- Whitespace as recognised by Python `str.strip`/`str.isspace` on the
ASCII range: space, tab, CR, LF, vertical tab, form feed. -/
def pyIsSpace (c : Char) : Bool :=
  c.isWhitespace || c == Char.ofNat 11 || c == Char.ofNat 12

/-- Python `str.strip()` on the character list: drop whitespace from both ends. -/
def stripChars (l : List Char) : List Char :=
  ((l.dropWhile pyIsSpace).reverse.dropWhile pyIsSpace).reverse

/-- Python `s.strip()`. -/
def pyStrip (s : String) : String :=
  String.mk (stripChars s.data)

/-- Python truthiness of `s.strip()`: true iff some character of `s` is
not whitespace (equivalently, `s.strip()` is non-empty). -/
def pyTruthy (s : String) : Bool :=
  s.data.any (fun c => !pyIsSpace c)

/-- Does `pat` occur at the head of `l`? -/
def startsWithChars : List Char → List Char → Bool
  | [], _ => true
  | _ :: _, [] => false
  | p :: ps, c :: cs => p == c && startsWithChars ps cs

/-- One left-to-right pass of Python `str.replace`: at each position,
if the pattern matches it is replaced and scanning resumes after the
match; otherwise the character is kept.  Fuel-structural so the kernel
can evaluate it; fuel equal to the length of the list always suffices
because every step consumes at least one character. -/
def replaceAuxF (pat rep : List Char) : Nat → List Char → List Char
  | 0, l => l
  | _ + 1, [] => []
  | f + 1, c :: cs =>
    if startsWithChars pat (c :: cs) then
      rep ++ replaceAuxF pat rep f (cs.drop (pat.length - 1))
    else
      c :: replaceAuxF pat rep f cs

/-- Python `s.replace(pat, rep)` (for the non-empty patterns the server
uses). -/
def pyReplace (s pat rep : String) : String :=
  String.mk (replaceAuxF pat.data rep.data s.data.length s.data)

/-- Python `"\n".join(lines)`. -/
def joinLines : List String → String
  | [] => ""
  | [l] => l
  | l :: l' :: ls => l ++ "\n" ++ joinLines (l' :: ls)

/-! ### Data model: conversation turns -/

/-- One stored chat message.  `save_message` always writes `role`,
`message` and `timestamp`; `role` and `message` are `Option`-valued
because the readers access them with `dict.get` and a default. -/
structure Turn where
  role : Option String
  message : Option String
  timestamp : String
deriving DecidableEq

/-- `fetch_chat_history` (server.py lines 59-71): the store is queried
for the most recent `limit` turns in reverse-chronological order; the
function reverses that query result to chronological order.  The
`order_by(DESCENDING).limit(limit)` part is the store's contract, so the
embedded function takes the query result as input. -/
def fetch_chat_history (queryResult : List Turn) : List Turn :=
  queryResult.reverse

/-- Rendering of one turn inside `format_history_for_prompt`:
`f"{role}: {msg}"` with the role uppercased and `dict.get` defaults. -/
def renderTurn (item : Turn) : String :=
  (item.role.getD "user").toUpper ++ ": " ++ (item.message.getD "")

/-- `format_history_for_prompt` (server.py lines 74-83). -/
def format_history_for_prompt (history : List Turn) : String :=
  joinLines (history.map renderTurn)

/-- The fixed instructional preamble (source name: `guardrails_prefix`,
server.py lines 86-95). -/
def guardrailsText : String :=
  "You are a friendly, encouraging AI tutor for students in grades 2-12. " ++
  "Your job: teach, explain clearly, ask follow-up questions, encourage, and help with school subjects. " ++
  "Stay strictly within educational content; do not discuss unrelated or unsafe topics. " ++
  "Use simple steps, examples, and short paragraphs. When helpful, ask the student a question to check understanding.\n"

/-- `build_prompt` (server.py lines 98-109).  The transcript slot holds
`history_text` when `history_text.strip()` is truthy and the explicit
marker otherwise. -/
def build_prompt (history_text latest_user_message : String) : String :=
  guardrailsText
  ++ "Here is the recent conversation between YOU (the tutor) and the STUDENT:\n"
  ++ (if pyTruthy history_text then history_text else "(no previous messages)\n")
  ++ "\nThe STUDENT just said:\n"
  ++ "\"" ++ latest_user_message ++ "\"\n\n"
  ++ "Respond now as the tutor."

/-- Lexicographic order on character lists; the design orders turns by
their ISO-8601 timestamps, which sort lexicographically. -/
def charListLe : List Char → List Char → Bool
  | [], _ => true
  | _ :: _, [] => false
  | a :: as, b :: bs => if a = b then charListLe as bs else decide (a < b)

/-- Lexicographic order on timestamps. -/
def tsLe (a b : String) : Bool :=
  charListLe a.data b.data

/-! ### Generation gateway -/

/-- `generate_ai_reply` (server.py lines 112-129).  The Cohere call is a
collaborator; its outcome is the input: `Except.error e` is a raised
exception rendered as `str(e)`, `Except.ok t` is a successful response
whose first generation text is `t` (`none` models a null text, which the
code turns into `""` via `or ""`).  The whole body is inside
`try/except`, so a fault becomes the apology string. -/
def generate_ai_reply (modelResult : Except String (Option String)) : String :=
  match modelResult with
  | Except.ok raw =>
    let text := pyStrip (raw.getD "")
    pyStrip (pyReplace text "\n\n\n" "\n\n")
  | Except.error e => "Oops—I\x27m having trouble thinking right now: " ++ e

/-! ### JSON values and a model of `json.loads` -/

/-- JSON values, as produced by Python `json.loads`: objects keep their
fields in textual order (with a later duplicate key winning on lookup,
as in a Python dict). -/
inductive Json where
  | null : Json
  | bool : Bool → Json
  | num : Int → Json
  | str : String → Json
  | arr : List Json → Json
  | obj : List (String × Json) → Json

/-- The double-quote character. -/
def quoteChar : Char := Char.ofNat 34

/-- The backslash character. -/
def backslashChar : Char := Char.ofNat 92

/-- Skip JSON whitespace (space, tab, CR, LF). -/
def skipWs : List Char → List Char
  | [] => []
  | c :: cs => if c.isWhitespace then skipWs cs else c :: cs

/-- Resolve a single-character JSON escape. -/
def unescape (e : Char) : Option Char :=
  if e = quoteChar then some quoteChar
  else if e = backslashChar then some backslashChar
  else if e = '/' then some '/'
  else if e = 'n' then some '\n'
  else if e = 't' then some '\t'
  else if e = 'r' then some '\r'
  else if e = 'b' then some (Char.ofNat 8)
  else if e = 'f' then some (Char.ofNat 12)
  else none

/-- Parse the body of a JSON string (the opening quote already
consumed), returning the decoded characters and the remaining input.
Unicode escapes are not supported; none of the server's payloads use
them. -/
def parseStringAux : List Char → Option (List Char × List Char)
  | [] => none
  | c :: cs =>
    if c = quoteChar then some ([], cs)
    else if c = backslashChar then
      match cs with
      | [] => none
      | e :: cs2 =>
        match parseStringAux cs2 with
        | none => none
        | some (v, rest) =>
          match unescape e with
          | some ch => some (ch :: v, rest)
          | none => none
    else
      match parseStringAux cs with
      | none => none
      | some (v, rest) => some (c :: v, rest)

/-- Numeric value of a digit list. -/
def digitsToNat (l : List Char) : Nat :=
  l.foldl (fun n c => n * 10 + (c.toNat - 48)) 0

/-- Parse a run of decimal digits. -/
def parseDigits (cs : List Char) : Option (Nat × List Char) :=
  match cs.takeWhile Char.isDigit with
  | [] => none
  | ds => some (digitsToNat ds, cs.dropWhile Char.isDigit)

/-- Recursive-descent JSON parser, structural on a fuel argument so the
kernel can evaluate it.  An array or object tail is parsed by re-opening
the bracket on the remaining input.  Only integer numeric literals are
recognised (the server's payloads contain no floats). -/
def parseVal : Nat → List Char → Option (Json × List Char)
  | 0, _ => none
  | f + 1, cs =>
    match skipWs cs with
    | 'n' :: 'u' :: 'l' :: 'l' :: rest => some (Json.null, rest)
    | 't' :: 'r' :: 'u' :: 'e' :: rest => some (Json.bool true, rest)
    | 'f' :: 'a' :: 'l' :: 's' :: 'e' :: rest => some (Json.bool false, rest)
    | '[' :: rest =>
      match skipWs rest with
      | ']' :: r => some (Json.arr [], r)
      | cs2 =>
        match parseVal f cs2 with
        | some (v, r1) =>
          match skipWs r1 with
          | ',' :: r2 =>
            match parseVal f ('[' :: r2) with
            | some (Json.arr vs, r3) => some (Json.arr (v :: vs), r3)
            | _ => none
          | ']' :: r2 => some (Json.arr [v], r2)
          | _ => none
        | none => none
    | '{' :: rest =>
      match skipWs rest with
      | '}' :: r => some (Json.obj [], r)
      | k :: scs =>
        if k = quoteChar then
          match parseStringAux scs with
          | some (key, r1) =>
            match skipWs r1 with
            | ':' :: r2 =>
              match parseVal f r2 with
              | some (v, r3) =>
                match skipWs r3 with
                | ',' :: r4 =>
                  match parseVal f ('{' :: r4) with
                  | some (Json.obj fs, r5) => some (Json.obj ((String.mk key, v) :: fs), r5)
                  | _ => none
                | '}' :: r4 => some (Json.obj [(String.mk key, v)], r4)
                | _ => none
              | none => none
            | _ => none
          | none => none
        else none
      | [] => none
    | '-' :: rest =>
      match parseDigits rest with
      | some (n, r) => some (Json.num (-(n : Int)), r)
      | none => none
    | c :: rest =>
      if c = quoteChar then
        match parseStringAux rest with
        | some (v, r) => some (Json.str (String.mk v), r)
        | none => none
      else if c.isDigit then
        match parseDigits (c :: rest) with
        | some (n, r) => some (Json.num (n : Int), r)
        | none => none
      else none
    | [] => none

/-- Model of Python `json.loads`: parse one value and require that only
whitespace remains. -/
def jsonLoads (s : String) : Option Json :=
  match parseVal (4 * s.data.length + 8) s.data with
  | some (v, rest) => if skipWs rest = [] then some v else none
  | none => none

/-- Python dict lookup on parsed object fields; a later duplicate key
wins, as in a dict built by successive insertion. -/
def dictGet : List (String × Json) → String → Option Json
  | [], _ => none
  | (k', v) :: rest, k =>
    match dictGet rest k with
    | some v' => some v'
    | none => if k' = k then some v else none

/-- Python subscript `test_data["questions"]`: raises `KeyError` when
the key is absent and `TypeError` when the value is not a dict. -/
def getQuestions (test_data : Json) : Except String Json :=
  match test_data with
  | Json.obj fields =>
    match dictGet fields "questions" with
    | some v => Except.ok v
    | none => Except.error "KeyError: questions"
  | _ => Except.error "TypeError: not a dict"

/-! ### The fallback test template (server.py lines 219-236) -/

/-- A multiple-choice entry of the fallback template. -/
def mcqQ (subject question : String) (options : List String) (answer : String) : Json :=
  Json.obj [("type", Json.str "mcq"), ("subject", Json.str subject),
            ("question", Json.str question),
            ("options", Json.arr (options.map Json.str)),
            ("answer", Json.str answer)]

/-- A short-answer entry of the fallback template. -/
def shortQ (subject question : String) : Json :=
  Json.obj [("type", Json.str "short"), ("subject", Json.str subject),
            ("question", Json.str question), ("answer", Json.str "")]

/-- The `questions` array of `default_test`. -/
def default_test_questions : Json :=
  Json.arr
    [ mcqQ "Math" "What is 5 + 3?" ["5", "6", "7", "8"] "8",
      mcqQ "Math" "Which number is even?" ["3", "7", "10", "9"] "10",
      mcqQ "Science" "Which planet is known as the Red Planet?" ["Earth", "Mars", "Venus", "Jupiter"] "Mars",
      mcqQ "English" "Choose the correct plural of \x27child\x27." ["childs", "children", "childes", "childer"] "children",
      mcqQ "Math" "What is 12 ÷ 4?" ["2", "3", "4", "6"] "3",
      mcqQ "Science" "Water boils at ___ °C." ["50", "100", "200", "0"] "100",
      mcqQ "General Knowledge" "What is the capital of India?" ["Delhi", "Mumbai", "Chennai", "Kolkata"] "Delhi",
      mcqQ "Math" "What is the square of 9?" ["18", "81", "27", "72"] "81",
      mcqQ "English" "Fill in the blank: The sun ___ in the east." ["rise", "rises", "rising", "rose"] "rises",
      mcqQ "Science" "Which gas do we breathe in to stay alive?" ["Oxygen", "Carbon Dioxide", "Nitrogen", "Helium"] "Oxygen",
      shortQ "English" "Write a sentence using the word \x27school\x27.",
      shortQ "Math" "Explain how you would solve 25 ÷ 5.",
      shortQ "Science" "Why is the sun important for life on Earth?",
      shortQ "General Knowledge" "Name your favorite subject and explain why." ]

/-- The fallback `default_test` object. -/
def default_test : Json :=
  Json.obj [("questions", default_test_questions)]

/-! ### Test composition (`/generate_test`, server.py lines 191-288) -/

/-- Outcome of the `/generate_test` handler: a 400 client error, a
composed question set (recording whether the generative model was
invoked), or a Python exception escaping the handler. -/
inductive TestGenOutcome where
  | badRequest : String → TestGenOutcome
  | composed : Json → Bool → TestGenOutcome
  | raised : String → TestGenOutcome

/-- The `/generate_test` handler.  The store's query result (newest
first) and the would-be model reply are collaborator inputs; on the
short-history path the model is never invoked, so the reply argument is
unused there.  After choosing `test_data`, the code evaluates
`test_data["questions"]` with no further validation. -/
def generate_test (uidRaw : Option String) (queryResult : List Turn) (aiReply : String) : TestGenOutcome :=
  let uid := pyStrip (uidRaw.getD "")
  if uid = "" then TestGenOutcome.badRequest "uid is required"
  else
    let history := fetch_chat_history queryResult
    let td : Json × Bool :=
      if history.length < 5 then (default_test, false)
      else
        match jsonLoads aiReply with
        | some j => (j, true)
        | none => (default_test, true)
    match getQuestions td.1 with
    | Except.ok qs => TestGenOutcome.composed qs td.2
    | Except.error e => TestGenOutcome.raised e

/-- Count the entries of a question list whose `type` field is the
string `t`. -/
def questionTypeCount (t : String) (qs : List Json) : Nat :=
  (qs.filter (fun q =>
    match q with
    | Json.obj fs =>
      match dictGet fs "type" with
      | some (Json.str s) => s == t
      | _ => false
    | _ => false)).length

/-- The shape the specification requires of a composed test: an array
of exactly 14 questions, 10 multiple-choice and 4 short-answer. -/
def wellShapedB (qs : Json) : Bool :=
  match qs with
  | Json.arr xs =>
    xs.length == 14 && questionTypeCount "mcq" xs == 10 && questionTypeCount "short" xs == 4
  | _ => false

/-! ### The chat route (`/chat`, server.py lines 151-189) -/

/-- The decoded request body of `/chat`. -/
structure ChatRequest where
  uid : Option String
  message : Option String
deriving DecidableEq

/-- Observable outcome of the `/chat` handler: the HTTP response, the
messages written to the conversation log (role, text), whether the
history was fetched, the prompt sent to the model (if any), and whether
the model was invoked. -/
structure ChatResult where
  response : Except (String × Nat) String
  saved : List (String × String)
  historyFetched : Bool
  prompt : Option String
  modelInvoked : Bool

/-- The `/chat` handler.  Validation happens before any collaborator
call; afterwards the user message is saved, the history fetched, the
prompt built, the model invoked and both turns recorded. -/
def chat (req : ChatRequest) (queryResult : List Turn) (modelResult : Except String (Option String)) : ChatResult :=
  let uid := pyStrip (req.uid.getD "")
  let user_msg := pyStrip (req.message.getD "")
  if uid = "" then
    { response := Except.error ("uid is required", 400), saved := [],
      historyFetched := false, prompt := none, modelInvoked := false }
  else if user_msg = "" then
    { response := Except.error ("message is required", 400), saved := [],
      historyFetched := false, prompt := none, modelInvoked := false }
  else
    let history := fetch_chat_history queryResult
    let history_text := format_history_for_prompt history
    let promptText := build_prompt history_text user_msg
    let ai_reply := generate_ai_reply modelResult
    { response := Except.ok ai_reply,
      saved := [("user", user_msg), ("ai", ai_reply)],
      historyFetched := true, prompt := some promptText, modelInvoked := true }

/-! ### Scoring (`/submit_test`, server.py lines 291-333) -/

/-- One submitted answer item, with the keys the scoring loop reads via
`dict.get`. -/
structure AnswerItem where
  subject : Option String
  type : Option String
  studentAnswer : Option String
  answer : Option String
deriving DecidableEq

/-- The scoring accumulator: `correct_count`, `total_mcq` and the
`subject_scores` dict (an insertion-ordered association list, one entry
per subject, holding `correct` and `total`). -/
structure ScoreState where
  correct_count : Nat
  total_mcq : Nat
  subject_scores : List (String × Nat × Nat)
deriving DecidableEq

/-- The subject an item is scored under: `q.get("subject", "General")`. -/
def subjKey (q : AnswerItem) : String :=
  q.subject.getD "General"

/-- The correctness test of the loop:
`q.get("studentAnswer") and q.get("studentAnswer") == q.get("answer")`
(a truthy, i.e. non-empty, student answer equal to the expected one). -/
def isCorrectAnswer (q : AnswerItem) : Bool :=
  match q.studentAnswer with
  | some s => !(s == "") && q.answer == some s
  | none => false

/-- Add `dc` to `correct` and `dt` to `total` for subject `k`, creating
the entry (initialised to zero) if absent — the net effect of the
`subject_scores.get(subj, ...)` / increment sequences in the loop. -/
def bump (m : List (String × Nat × Nat)) (k : String) (dc dt : Nat) : List (String × Nat × Nat) :=
  match m with
  | [] => [(k, dc, dt)]
  | (k', c, t) :: rest =>
    if k' = k then (k', c + dc, t + dt) :: rest
    else (k', c, t) :: bump rest k dc dt

/-- One iteration of the scoring loop (server.py lines 306-320). -/
def scoreStep (st : ScoreState) (q : AnswerItem) : ScoreState :=
  let subj := subjKey q
  if q.type == some "mcq" then
    if isCorrectAnswer q then
      { correct_count := st.correct_count + 1
        total_mcq := st.total_mcq + 1
        subject_scores := bump st.subject_scores subj 1 1 }
    else
      { st with total_mcq := st.total_mcq + 1
                subject_scores := bump st.subject_scores subj 0 1 }
  else
    { st with subject_scores := bump st.subject_scores subj 0 1 }

/-- The scoring loop over the submitted answers. -/
def runScore (answers : List AnswerItem) : ScoreState :=
  answers.foldl scoreStep ⟨0, 0, []⟩

/-- The aggregate score:
`f"{correct_count}/{total_mcq}" if total_mcq > 0 else None`. -/
def aggregateScore (answers : List AnswerItem) : Option String :=
  let st := runScore answers
  if st.total_mcq > 0 then
    some (toString st.correct_count ++ "/" ++ toString st.total_mcq)
  else none

/-- The decoded request body of `/submit_test`. -/
structure SubmitRequest where
  uid : Option String
  testId : Option String
  answers : List AnswerItem
deriving DecidableEq

/-- The `/submit_test` handler.  `storedTest` is the document the test
store holds under the submitted id (`none` when there is none); the
handler only ever writes to it, so the parameter is never read — the
score and breakdown come from the submitted answers alone. -/
def submit_test (req : SubmitRequest) (_storedTest : Option Json) :
    Except (String × Nat) (Option String × List (String × Nat × Nat)) :=
  let uid := pyStrip (req.uid.getD "")
  let test_id := pyStrip (req.testId.getD "")
  if uid = "" || test_id = "" then Except.error ("uid and testId are required", 400)
  else Except.ok (aggregateScore req.answers, (runScore req.answers).subject_scores)

/-! ### Concrete sample data for witnesses and counterexamples -/

/-- A stored student turn. -/
def turnUser (ts msg : String) : Turn := ⟨some "user", some msg, ts⟩

/-- A stored tutor turn. -/
def turnAi (ts msg : String) : Turn := ⟨some "ai", some msg, ts⟩

/-- A two-turn query result (newest first, as the store returns it). -/
def histTwo : List Turn :=
  [turnAi "2025-01-01T00:00:01Z" "Hello! How can I help?",
   turnUser "2025-01-01T00:00:00Z" "Hi"]

/-- A five-turn query result (newest first). -/
def histFive : List Turn :=
  [turnUser "2025-01-01T00:00:04Z" "Thanks!",
   turnAi "2025-01-01T00:00:03Z" "Eight.",
   turnUser "2025-01-01T00:00:02Z" "What is 5 + 3?",
   turnAi "2025-01-01T00:00:01Z" "Hello! How can I help?",
   turnUser "2025-01-01T00:00:00Z" "Hi"]

/-! ### C3: the generation gateway absorbs faults -/

/-- C3.  `GenerationGateway.generate` (`generate_ai_reply`) never raises
to its caller: the embedded function is total, and on a model fault with
description `e` it returns exactly the user-facing apology string
embedding `e`, which is in particular a non-empty (non-null) string. -/
theorem generate_ai_reply_absorbs_faults (e : String) :
    generate_ai_reply (Except.error e) = "Oops—I\x27m having trouble thinking right now: " ++ e ∧
    generate_ai_reply (Except.error e) ≠ "" := by
  refine ⟨rfl, ?_⟩
  intro hcontra
  have happ : ("Oops—I\x27m having trouble thinking right now: " : String) ++ e = "" := hcontra
  have hlen := congrArg String.length happ
  rw [String.length_append] at hlen
  have hzero : ("" : String).length = 0 := rfl
  rw [hzero] at hlen
  have hpos : 0 < ("Oops—I\x27m having trouble thinking right now: " : String).length := by decide
  omega

/-! ### C5: short history goes straight to the fallback template -/

/-- C5.  With fewer than 5 stored turns, `/generate_test` returns the
fallback template verbatim with the model not invoked, and the outcome
does not depend on the would-be model reply at all. -/
theorem compose_short_history_uses_template (uidRaw : Option String) (qr : List Turn) (r r' : String)
    (huid : pyStrip (uidRaw.getD "") ≠ "") (hlen : qr.length < 5) :
    generate_test uidRaw qr r = TestGenOutcome.composed default_test_questions false ∧
    generate_test uidRaw qr r = generate_test uidRaw qr r' := by
  have h1 : ∀ s : String, generate_test uidRaw qr s = TestGenOutcome.composed default_test_questions false := by
    intro s
    have hq : getQuestions default_test = Except.ok default_test_questions := rfl
    simp [generate_test, huid, fetch_chat_history, hlen, hq]
  exact ⟨h1 r, (h1 r).trans (h1 r').symm⟩

/-- Witness for C5 at a concrete two-turn history. -/
theorem compose_short_history_uses_template_witness :
    generate_test (some "u1") histTwo "replyA" = TestGenOutcome.composed default_test_questions false ∧
    generate_test (some "u1") histTwo "replyA" = generate_test (some "u1") histTwo "replyB" :=
  compose_short_history_uses_template (some "u1") histTwo "replyA" "replyB" (by decide) (by decide)

/-! ### C1: the 14-question shape -/

/-- C1 counterexample.  With 5 stored turns and a model reply that is
valid JSON holding an empty `questions` array, `/generate_test` returns
a 0-question test: the claimed 14-question (10 mcq + 4 short) shape does
not hold on the synthesis path. -/
theorem compose_not_always_14_cex :
    generate_test (some "u1") histFive "\x7b\"questions\": []\x7d" =
      TestGenOutcome.composed (Json.arr []) true ∧
    wellShapedB (Json.arr []) = false :=
  ⟨rfl, rfl⟩

/-- C1 amended.  On every fallback path — fewer than 5 turns, or an
unparseable model reply — `/generate_test` returns the fixed template,
which has exactly 14 questions: 10 multiple-choice and 4 short-answer.
On a parse success the synthesized `questions` value is returned without
any shape validation. -/
theorem compose_fallback_always_14 (uidRaw : Option String) (qr : List Turn) (r : String)
    (huid : pyStrip (uidRaw.getD "") ≠ "")
    (h : qr.length < 5 ∨ jsonLoads r = none) :
    (∃ b, generate_test uidRaw qr r = TestGenOutcome.composed default_test_questions b) ∧
    wellShapedB default_test_questions = true := by
  by_cases hl : qr.length < 5
  · refine ⟨⟨false, ?_⟩, rfl⟩
    have hq : getQuestions default_test = Except.ok default_test_questions := rfl
    simp [generate_test, huid, fetch_chat_history, hl, hq]
  · rcases h with h | h
    · exact absurd h hl
    · refine ⟨⟨true, ?_⟩, rfl⟩
      have hq : getQuestions default_test = Except.ok default_test_questions := rfl
      simp [generate_test, huid, fetch_chat_history, hl, h, hq]

/-- Witness for C1 (amended) at an empty history and a non-JSON reply. -/
theorem compose_fallback_always_14_witness :
    (∃ b, generate_test (some "u1") histTwo "not json" = TestGenOutcome.composed default_test_questions b) ∧
    wellShapedB default_test_questions = true :=
  compose_fallback_always_14 (some "u1") histTwo "not json" (by decide) (Or.inl (by decide))

/-! ### C2: the missing `questions`-key validation -/

/-- C2.  The code validates only that `json.loads` succeeds; it never
checks for a `questions` key.  The reply `"{}"` is valid JSON without
that key, and the subsequent `test_data["questions"]` subscript raises a
`KeyError` that escapes the handler instead of falling back to the
template. -/
theorem compose_missing_questions_key_raises :
    jsonLoads "\x7b\x7d" = some (Json.obj []) ∧
    generate_test (some "u1") histFive "\x7b\x7d" = TestGenOutcome.raised "KeyError: questions" :=
  ⟨rfl, rfl⟩

/-! ### C10: scoring never reads the stored test -/

/-- C10.  The score and per-subject breakdown of `/submit_test` are a
function of the submitted answers alone: the handler never reads the
stored test document, so any two stored tests — including none at all —
yield identical results for a fixed submission. -/
theorem submit_score_ignores_stored_test (req : SubmitRequest) (t1 t2 : Option Json) :
    submit_test req t1 = submit_test req t2 :=
  rfl

/-! ### C9: input validation happens before any collaborator call -/

/-- C9.  When the uid or the message is missing or empty after
stripping, `/chat` rejects the request with a client-side (400) error
and touches no collaborator: nothing is written to the log, the history
is not fetched and the model is not invoked. -/
theorem chat_invalid_input_no_effects (req : ChatRequest) (qr : List Turn)
    (mr : Except String (Option String))
    (h : pyStrip (req.uid.getD "") = "" ∨ pyStrip (req.message.getD "") = "") :
    (∃ e, (chat req qr mr).response = Except.error e) ∧
    (chat req qr mr).saved = [] ∧
    (chat req qr mr).historyFetched = false ∧
    (chat req qr mr).modelInvoked = false := by
  by_cases hu : pyStrip (req.uid.getD "") = ""
  · refine ⟨⟨("uid is required", 400), ?_⟩, ?_, ?_, ?_⟩ <;> simp [chat, hu]
  · rcases h with h | h
    · exact absurd h hu
    · refine ⟨⟨("message is required", 400), ?_⟩, ?_, ?_, ?_⟩ <;> simp [chat, hu, h]

/-- Witness for C9: a whitespace-only uid is rejected with no effects. -/
theorem chat_invalid_input_no_effects_witness :
    (∃ e, (chat ⟨some "  ", some "What is photosynthesis?"⟩ [] (Except.ok (some "x"))).response = Except.error e) ∧
    (chat ⟨some "  ", some "What is photosynthesis?"⟩ [] (Except.ok (some "x"))).saved = [] ∧
    (chat ⟨some "  ", some "What is photosynthesis?"⟩ [] (Except.ok (some "x"))).historyFetched = false ∧
    (chat ⟨some "  ", some "What is photosynthesis?"⟩ [] (Except.ok (some "x"))).modelInvoked = false :=
  chat_invalid_input_no_effects ⟨some "  ", some "What is photosynthesis?"⟩ [] (Except.ok (some "x"))
    (Or.inl (by decide))

/-! ### C7: the rendered transcript section -/

/-- Truthiness distributes over string append. -/
theorem pyTruthy_append (a b : String) : pyTruthy (a ++ b) = (pyTruthy a || pyTruthy b) := by
  simp [pyTruthy, String.data_append]

/-- A rendered turn always contains the non-whitespace colon. -/
theorem pyTruthy_renderTurn (t : Turn) : pyTruthy (renderTurn t) = true := by
  unfold renderTurn
  rw [pyTruthy_append, pyTruthy_append]
  have hcolon : pyTruthy ": " = true := by decide
  simp [hcolon]

/-- Joining a line list whose head is truthy yields a truthy string. -/
theorem pyTruthy_joinLines_cons (l : String) (ls : List String)
    (hl : pyTruthy l = true) : pyTruthy (joinLines (l :: ls)) = true := by
  cases ls with
  | nil => simpa [joinLines] using hl
  | cons l2 ls2 => simp [joinLines, pyTruthy_append, hl]

/-- C7.  The prompt built from a conversation window renders the
transcript slot as the explicit "(no previous messages)" marker exactly
when the window is empty, and otherwise as the window turns, each
rendered `ROLE: text` with the role uppercased, joined by newlines in
the window order (oldest first as given). -/
theorem build_prompt_transcript_shape (W : List Turn) (M : String) :
    build_prompt (format_history_for_prompt W) M =
      guardrailsText
      ++ "Here is the recent conversation between YOU (the tutor) and the STUDENT:\n"
      ++ (if W.isEmpty then "(no previous messages)\n" else joinLines (W.map renderTurn))
      ++ "\nThe STUDENT just said:\n"
      ++ "\"" ++ M ++ "\"\n\n"
      ++ "Respond now as the tutor." := by
  cases W with
  | nil => rfl
  | cons t rest =>
    have htr : pyTruthy (joinLines (renderTurn t :: List.map renderTurn rest)) = true :=
      pyTruthy_joinLines_cons _ _ (pyTruthy_renderTurn t)
    simp [build_prompt, format_history_for_prompt, htr]

/-! ### C6: the history fetch is bounded and chronological -/

/-- C6.  Given the store query result (at most `limit` turns, newest
first per the collaborator contract), `fetch_chat_history` returns at
most `limit` turns, in chronological (oldest-first) order, and is
exactly the reversal of the query result. -/
theorem fetch_chat_history_bounded_chronological (queryResult : List Turn) (limit : Nat)
    (hlim : queryResult.length ≤ limit)
    (hdesc : List.Sorted (fun a b : Turn => tsLe b.timestamp a.timestamp = true) queryResult) :
    (fetch_chat_history queryResult).length ≤ limit ∧
    List.Sorted (fun a b : Turn => tsLe a.timestamp b.timestamp = true) (fetch_chat_history queryResult) ∧
    fetch_chat_history queryResult = queryResult.reverse := by
  refine ⟨by simpa [fetch_chat_history] using hlim, ?_, rfl⟩
  exact List.pairwise_reverse.mpr hdesc

/-- Witness for C6 at a concrete newest-first two-turn query result. -/
theorem fetch_chat_history_bounded_chronological_witness :
    (fetch_chat_history histTwo).length ≤ 14 ∧
    List.Sorted (fun a b : Turn => tsLe a.timestamp b.timestamp = true) (fetch_chat_history histTwo) ∧
    fetch_chat_history histTwo = histTwo.reverse :=
  fetch_chat_history_bounded_chronological histTwo 14 (by decide) (by decide)

/-! ### C4: invariants of the scoring loop -/

/-- A `bump` that adds no more to `correct` than to `total` preserves
the per-entry bound `correct ≤ total`. -/
theorem bump_le (m : List (String × Nat × Nat)) (k : String) (dc dt : Nat)
    (hdc : dc ≤ dt) (H : ∀ e ∈ m, e.2.1 ≤ e.2.2) :
    ∀ e ∈ bump m k dc dt, e.2.1 ≤ e.2.2 := by
  induction m with
  | nil =>
    intro e he
    simp only [bump, List.mem_singleton] at he
    subst he
    simpa using hdc
  | cons p tl ih =>
    obtain ⟨k2, c, t⟩ := p
    intro e he
    simp only [bump] at he
    split at he
    · rcases List.mem_cons.mp he with h | h
      · subst h
        have := H (k2, c, t) (List.mem_cons_self _ _)
        simp at this ⊢
        omega
      · exact H e (List.mem_cons_of_mem _ h)
    · rcases List.mem_cons.mp he with h | h
      · subst h
        exact H (k2, c, t) (List.mem_cons_self _ _)
      · exact ih (fun e2 he2 => H e2 (List.mem_cons_of_mem _ he2)) e h

/-- One scoring step preserves both invariants. -/
theorem scoreStep_inv (st : ScoreState) (q : AnswerItem)
    (h1 : st.correct_count ≤ st.total_mcq)
    (h2 : ∀ e ∈ st.subject_scores, e.2.1 ≤ e.2.2) :
    (scoreStep st q).correct_count ≤ (scoreStep st q).total_mcq ∧
    ∀ e ∈ (scoreStep st q).subject_scores, e.2.1 ≤ e.2.2 := by
  unfold scoreStep
  by_cases hm : (q.type == some "mcq") = true
  · by_cases hc : isCorrectAnswer q = true
    · simp only [hm, hc, if_true]
      exact ⟨by omega, bump_le _ _ 1 1 (by omega) h2⟩
    · simp only [hm, hc, if_true, if_false, Bool.false_eq_true]
      exact ⟨by omega, bump_le _ _ 0 1 (by omega) h2⟩
  · simp only [hm, Bool.false_eq_true, if_false]
    exact ⟨h1, bump_le _ _ 0 1 (by omega) h2⟩

/-- The fold over the answers preserves both invariants. -/
theorem foldl_scoreStep_inv (l : List AnswerItem) (st : ScoreState)
    (h1 : st.correct_count ≤ st.total_mcq)
    (h2 : ∀ e ∈ st.subject_scores, e.2.1 ≤ e.2.2) :
    (l.foldl scoreStep st).correct_count ≤ (l.foldl scoreStep st).total_mcq ∧
    ∀ e ∈ (l.foldl scoreStep st).subject_scores, e.2.1 ≤ e.2.2 := by
  induction l generalizing st with
  | nil => exact ⟨h1, h2⟩
  | cons q tl ih =>
    simp only [List.foldl_cons]
    obtain ⟨g1, g2⟩ := scoreStep_inv st q h1 h2
    exact ih _ g1 g2

/-- The fold counts exactly the multiple-choice items into `total_mcq`. -/
theorem foldl_scoreStep_total_mcq (l : List AnswerItem) (st : ScoreState) :
    (l.foldl scoreStep st).total_mcq = st.total_mcq + l.countP (fun q => q.type == some "mcq") := by
  induction l generalizing st with
  | nil => simp
  | cons q tl ih =>
    simp only [List.foldl_cons, List.countP_cons, ih]
    by_cases hm : (q.type == some "mcq") = true
    · by_cases hc : isCorrectAnswer q = true <;> simp [scoreStep, hm, hc] <;> omega
    · simp [scoreStep, hm]

/-- The bumped key has an entry afterwards. -/
theorem bump_mem_key (m : List (String × Nat × Nat)) (k : String) (dc dt : Nat) :
    ∃ c t, (k, c, t) ∈ bump m k dc dt := by
  induction m with
  | nil => exact ⟨dc, dt, by simp [bump]⟩
  | cons p tl ih =>
    obtain ⟨k2, c, t⟩ := p
    by_cases hk : k2 = k
    · subst hk
      exact ⟨c + dc, t + dt, by simp [bump]⟩
    · obtain ⟨c2, t2, hm2⟩ := ih
      refine ⟨c2, t2, ?_⟩
      simp only [bump]
      rw [if_neg hk]
      exact List.mem_cons_of_mem _ hm2

/-- Entries already present survive a `bump` (possibly updated). -/
theorem bump_key_mono (m : List (String × Nat × Nat)) (k : String) (dc dt : Nat) (x : String)
    (hx : ∃ c t, (x, c, t) ∈ m) : ∃ c t, (x, c, t) ∈ bump m k dc dt := by
  induction m with
  | nil => simp at hx
  | cons p tl ih =>
    obtain ⟨k2, c, t⟩ := p
    obtain ⟨cx, tx, hmem⟩ := hx
    rcases List.mem_cons.mp hmem with h | h
    · have hx2 : x = k2 := by
        have := congrArg Prod.fst h
        simpa using this
      by_cases hk : k2 = k
      · subst hk
        exact ⟨c + dc, t + dt, by simp [bump, hx2]⟩
      · refine ⟨c, t, ?_⟩
        simp only [bump]
        rw [if_neg hk]
        simp [hx2]
    · by_cases hk : k2 = k
      · subst hk
        exact ⟨cx, tx, by simp only [bump, if_pos rfl]; exact List.mem_cons_of_mem _ h⟩
      · obtain ⟨c2, t2, hm2⟩ := ih ⟨cx, tx, h⟩
        refine ⟨c2, t2, ?_⟩
        simp only [bump]
        rw [if_neg hk]
        exact List.mem_cons_of_mem _ hm2

/-- After a step, the processed item has a breakdown entry under its
subject. -/
theorem scoreStep_key_self (st : ScoreState) (q : AnswerItem) :
    ∃ c t, (subjKey q, c, t) ∈ (scoreStep st q).subject_scores := by
  unfold scoreStep
  by_cases hm : (q.type == some "mcq") = true
  · by_cases hc : isCorrectAnswer q = true
    · simp only [hm, hc, if_true]
      exact bump_mem_key st.subject_scores (subjKey q) 1 1
    · simp only [hm, hc, if_true, Bool.false_eq_true, if_false]
      exact bump_mem_key st.subject_scores (subjKey q) 0 1
  · simp only [hm, Bool.false_eq_true, if_false]
    exact bump_mem_key st.subject_scores (subjKey q) 0 1

/-- A step never removes a breakdown entry. -/
theorem scoreStep_key_mono (st : ScoreState) (q : AnswerItem) (x : String)
    (hx : ∃ c t, (x, c, t) ∈ st.subject_scores) :
    ∃ c t, (x, c, t) ∈ (scoreStep st q).subject_scores := by
  unfold scoreStep
  by_cases hm : (q.type == some "mcq") = true
  · by_cases hc : isCorrectAnswer q = true
    · simp only [hm, hc, if_true]
      exact bump_key_mono st.subject_scores (subjKey q) 1 1 x hx
    · simp only [hm, hc, if_true, Bool.false_eq_true, if_false]
      exact bump_key_mono st.subject_scores (subjKey q) 0 1 x hx
  · simp only [hm, Bool.false_eq_true, if_false]
    exact bump_key_mono st.subject_scores (subjKey q) 0 1 x hx

/-- The fold never removes a breakdown entry. -/
theorem foldl_scoreStep_key_mono (l : List AnswerItem) (st : ScoreState) (x : String)
    (hx : ∃ c t, (x, c, t) ∈ st.subject_scores) :
    ∃ c t, (x, c, t) ∈ (l.foldl scoreStep st).subject_scores := by
  induction l generalizing st with
  | nil => exact hx
  | cons q tl ih =>
    simp only [List.foldl_cons]
    exact ih _ (scoreStep_key_mono st q x hx)

/-- Every processed item leaves a breakdown entry under its subject. -/
theorem foldl_scoreStep_key_mem (l : List AnswerItem) (st : ScoreState) (q : AnswerItem)
    (hq : q ∈ l) :
    ∃ c t, (subjKey q, c, t) ∈ (l.foldl scoreStep st).subject_scores := by
  induction l generalizing st with
  | nil => simp at hq
  | cons a tl ih =>
    simp only [List.foldl_cons]
    rcases List.mem_cons.mp hq with h | h
    · subst h
      exact foldl_scoreStep_key_mono tl _ _ (scoreStep_key_self st q)
    · exact ih _ h

/-- C4.  Invariants of the scoring engine: the aggregate numerator never
exceeds the denominator; every subject entry satisfies
`correct ≤ total`; a submission with no multiple-choice item gets a null
aggregate score; and every submitted item — whatever its subject label —
has a breakdown entry under that label. -/
theorem scoring_invariants (answers : List AnswerItem) :
    (runScore answers).correct_count ≤ (runScore answers).total_mcq ∧
    (∀ e ∈ (runScore answers).subject_scores, e.2.1 ≤ e.2.2) ∧
    (answers.countP (fun q => q.type == some "mcq") = 0 → aggregateScore answers = none) ∧
    (∀ q ∈ answers, ∃ c t, (subjKey q, c, t) ∈ (runScore answers).subject_scores) := by
  obtain ⟨g1, g2⟩ :=
    foldl_scoreStep_inv answers ⟨0, 0, []⟩ (Nat.le_refl 0) (by intro e he; simp at he)
  refine ⟨g1, g2, ?_, ?_⟩
  · intro h0
    have ht : (runScore answers).total_mcq = 0 := by
      have := foldl_scoreStep_total_mcq answers ⟨0, 0, []⟩
      simpa [runScore, h0] using this
    simp [aggregateScore, ht]
  · intro q hq
    exact foldl_scoreStep_key_mem answers _ q hq

/-- The one-item submission used to witness C4: a short-answer item with
an unrecognized subject. -/
def scoringWitnessAnswers : List AnswerItem :=
  [⟨some "Astrology", some "short", none, none⟩]

/-- Witness for C4 at a concrete one-item submission: no mcq items, so a
null aggregate; the entry bound holds; the unknown subject gets an
entry. -/
theorem scoring_invariants_witness :
    aggregateScore scoringWitnessAnswers = none ∧
    (("Astrology", 0, 1) : String × Nat × Nat).2.1 ≤ (("Astrology", 0, 1) : String × Nat × Nat).2.2 ∧
    (∃ c t, (subjKey ⟨some "Astrology", some "short", none, none⟩, c, t) ∈
      (runScore scoringWitnessAnswers).subject_scores) := by
  have h := scoring_invariants scoringWitnessAnswers
  exact ⟨h.2.2.1 (by decide),
         h.2.1 ("Astrology", 0, 1) (by decide),
         h.2.2.2 ⟨some "Astrology", some "short", none, none⟩ (by decide)⟩

/-! ### C8: post-processing of successful model replies -/

/-- C8 counterexample.  A reply with a run of five blank lines is only
partially collapsed by the single `replace("\n\n\n", "\n\n")` pass: the
output still contains a multi-blank-line run, so runs of three or more
blank lines are not reduced to exactly one. -/
theorem gateway_collapse_cex :
    generate_ai_reply (Except.ok (some "a\n\n\n\n\n\nb")) = "a\n\n\n\nb" ∧
    ("a\n\n\n\nb" : String) ≠ "a\n\nb" :=
  ⟨rfl, by decide⟩

/-- A list without newlines is untouched by the replacement pass. -/
theorem replaceAuxF_no_newline (rep : List Char) (f : Nat) (l : List Char)
    (h : ∀ c ∈ l, c ≠ '\n') :
    replaceAuxF ['\n', '\n', '\n'] rep f l = l := by
  induction f generalizing l with
  | zero => rfl
  | succ f ih =>
    cases l with
    | nil => rfl
    | cons c cs =>
      have hc : c ≠ '\n' := h c (List.mem_cons_self _ _)
      have hbe : ('\n' == c) = false := beq_eq_false_iff_ne.mpr (fun he => hc he.symm)
      have hs : startsWithChars ['\n', '\n', '\n'] (c :: cs) = false := by
        simp [startsWithChars, hbe]
      simp only [replaceAuxF, hs, Bool.false_eq_true, if_false]
      rw [ih cs (fun c2 hc2 => h c2 (List.mem_cons_of_mem _ hc2))]

/-- The replacement pass walks untouched over a newline-free prefix. -/
theorem replaceAuxF_skip (rep : List Char) (a rest : List Char)
    (h : ∀ c ∈ a, c ≠ '\n') (f : Nat) :
    replaceAuxF ['\n', '\n', '\n'] rep (a.length + f) (a ++ rest) =
      a ++ replaceAuxF ['\n', '\n', '\n'] rep f rest := by
  induction a with
  | nil => simp
  | cons c tl ih =>
    have hc : c ≠ '\n' := h c (List.mem_cons_self _ _)
    have hbe : ('\n' == c) = false := beq_eq_false_iff_ne.mpr (fun he => hc he.symm)
    have hs : startsWithChars ['\n', '\n', '\n'] (c :: (tl ++ rest)) = false := by
      simp [startsWithChars, hbe]
    have hfuel : (c :: tl).length + f = (tl.length + f) + 1 := by
      simp only [List.length_cons]
      omega
    rw [List.cons_append, hfuel]
    simp only [replaceAuxF, hs, Bool.false_eq_true, if_false]
    rw [ih (fun c2 hc2 => h c2 (List.mem_cons_of_mem _ hc2))]
    simp

/-- One replacement pass on a string with a single interior triple
newline, surrounded by newline-free text, yields exactly the double
newline. -/
theorem pyReplace_triple (a b : String)
    (ha : ∀ c ∈ a.data, c ≠ '\n') (hb : ∀ c ∈ b.data, c ≠ '\n') :
    pyReplace (a ++ "\n\n\n" ++ b) "\n\n\n" "\n\n" = a ++ "\n\n" ++ b := by
  have h3 : ("\n\n\n" : String).data = ['\n', '\n', '\n'] := rfl
  have h2 : ("\n\n" : String).data = ['\n', '\n'] := rfl
  have hdata : (a ++ "\n\n\n" ++ b).data = a.data ++ ('\n' :: '\n' :: '\n' :: b.data) := by
    rw [String.data_append, String.data_append, h3, List.append_assoc]
    rfl
  unfold pyReplace
  rw [hdata, h3, h2]
  have hlen : (a.data ++ ('\n' :: '\n' :: '\n' :: b.data)).length =
      a.data.length + (b.data.length + 3) := by
    simp only [List.length_append, List.length_cons]
  rw [hlen]
  rw [replaceAuxF_skip ['\n', '\n'] a.data ('\n' :: '\n' :: '\n' :: b.data) ha (b.data.length + 3)]
  have hf : b.data.length + 3 = (b.data.length + 2) + 1 := rfl
  rw [hf]
  have hs : startsWithChars ['\n', '\n', '\n'] ('\n' :: '\n' :: '\n' :: b.data) = true := by
    simp [startsWithChars]
  simp only [replaceAuxF, hs, if_true]
  rw [show List.drop (List.length ['\n', '\n', '\n'] - 1) ('\n' :: '\n' :: b.data) = b.data from rfl]
  rw [replaceAuxF_no_newline ['\n', '\n'] (b.data.length + 2) b.data hb]
  show String.mk (a.data ++ ('\n' :: '\n' :: b.data)) = a ++ "\n\n" ++ b
  have hgoal : a.data ++ ('\n' :: '\n' :: b.data) = (a ++ "\n\n" ++ b).data := by
    rw [String.data_append, String.data_append, h2, List.append_assoc]
    rfl
  rw [hgoal]

/-- Dropping whitespace from a list whose head is not whitespace is the
identity. -/
theorem dropWhile_eq_self_cons (c : Char) (l : List Char) (hc : pyIsSpace c = false) :
    (c :: l).dropWhile pyIsSpace = c :: l := by
  simp [List.dropWhile_cons, hc]

/-- Stripping is the identity when both ends are already non-space. -/
theorem pyStrip_eq_self_of_ends (s : String)
    (h1 : s.data.dropWhile pyIsSpace = s.data)
    (h2 : s.data.reverse.dropWhile pyIsSpace = s.data.reverse) :
    pyStrip s = s := by
  unfold pyStrip stripChars
  rw [h1, h2, List.reverse_reverse]

/-- Stripping a string that starts and ends with non-space text is the
identity, whatever lies in the middle. -/
theorem pyStrip_sandwich (a m b : String)
    (hane : a.data ≠ []) (hbne : b.data ≠ [])
    (ha : ∀ c ∈ a.data, pyIsSpace c = false)
    (hb : ∀ c ∈ b.data, pyIsSpace c = false) :
    pyStrip (a ++ m ++ b) = a ++ m ++ b := by
  obtain ⟨c, t, hct⟩ := List.exists_cons_of_ne_nil hane
  have hbrev : b.data.reverse ≠ [] := by
    intro hrev
    exact hbne (by simpa using hrev)
  obtain ⟨e, w, hew⟩ := List.exists_cons_of_ne_nil hbrev
  apply pyStrip_eq_self_of_ends
  · have hd : (a ++ m ++ b).data = c :: (t ++ (m.data ++ b.data)) := by
      rw [String.data_append, String.data_append, hct]
      simp [List.append_assoc]
    have hcmem : c ∈ a.data := by
      rw [hct]
      exact List.mem_cons_self c t
    rw [hd]
    exact dropWhile_eq_self_cons c _ (ha c hcmem)
  · have hrev : (a ++ m ++ b).data.reverse = e :: (w ++ (m.data.reverse ++ a.data.reverse)) := by
      rw [String.data_append, String.data_append, List.reverse_append, List.reverse_append, hew]
      simp [List.append_assoc]
    have hemem : e ∈ b.data := by
      have hm : e ∈ b.data.reverse := by
        rw [hew]
        exact List.mem_cons_self e w
      exact List.mem_reverse.mp hm
    rw [hrev]
    exact dropWhile_eq_self_cons e _ (hb e hemem)

/-- C8 amended.  Post-processing trims leading/trailing whitespace and
makes one left-to-right pass replacing each occurrence of three
consecutive newlines by two: a break of exactly two blank lines
collapses to one blank line (as here), while longer runs are only
partially collapsed (see the counterexample). -/
theorem gateway_normalization_amended (a b : String)
    (hane : a.data ≠ []) (hbne : b.data ≠ [])
    (ha : ∀ c ∈ a.data, pyIsSpace c = false)
    (hb : ∀ c ∈ b.data, pyIsSpace c = false) :
    generate_ai_reply (Except.ok (some (a ++ "\n\n\n" ++ b))) = a ++ "\n\n" ++ b := by
  have hanl : ∀ c ∈ a.data, c ≠ '\n' := by
    intro c hc he
    have hsp := ha c hc
    rw [he] at hsp
    exact absurd hsp (by decide)
  have hbnl : ∀ c ∈ b.data, c ≠ '\n' := by
    intro c hc he
    have hsp := hb c hc
    rw [he] at hsp
    exact absurd hsp (by decide)
  have h1 : pyStrip (a ++ "\n\n\n" ++ b) = a ++ "\n\n\n" ++ b :=
    pyStrip_sandwich a "\n\n\n" b hane hbne ha hb
  have h2 : pyStrip (a ++ "\n\n" ++ b) = a ++ "\n\n" ++ b :=
    pyStrip_sandwich a "\n\n" b hane hbne ha hb
  show pyStrip (pyReplace (pyStrip ((some (a ++ "\n\n\n" ++ b)).getD "")) "\n\n\n" "\n\n") =
    a ++ "\n\n" ++ b
  rw [show (some (a ++ "\n\n\n" ++ b)).getD "" = a ++ "\n\n\n" ++ b from rfl]
  rw [h1, pyReplace_triple a b hanl hbnl, h2]

/-- Witness for C8 (amended) at two concrete paragraphs. -/
theorem gateway_normalization_amended_witness :
    generate_ai_reply (Except.ok (some ("para1" ++ "\n\n\n" ++ "para2"))) =
      "para1" ++ "\n\n" ++ "para2" :=
  gateway_normalization_amended "para1" "para2" (by decide) (by decide) (by decide) (by decide)

end Athena
